import Mathlib

/-!
# Verification of the Executor RPC contract (`faas_pb2_grpc.py`)

A shallow embedding of the generated gRPC client/server glue for the
`faasfunction.Executor` service, together with models (taken from the
design spec) of the parts of the system that live outside this file in
the original repository: the protobuf codec (`faas_pb2`) and the gRPC
runtime's dispatch, registration and deadline machinery.

Python byte strings are modelled as `List Nat`; a fallible decode
returns `Option`; a Python function that may raise returns
`Except PyError`.
-/

/-- A byte string (Python `bytes`). -/
abbrev Bytes := List Nat

/-- The status codes of the spec's fault taxonomy (§4.4, §7), which the
source's `grpc.StatusCode.UNIMPLEMENTED` maps into. -/
inductive StatusCode where
  | ok
  | unimplemented
  | malformedMessage
  | deadlineExceeded
  | cancelled
  | internalError
  | unavailable
  | duplicateMethod
deriving DecidableEq, Repr

/-- Modelled from the spec: `FaasRequest` is an opaque payload — "a mapping
of named arguments to byte/value data" — whose exact fields are fixed by the
wire contract (`faas_pb2`, not present under `src/`). Names are byte
strings, as in a binary wire format. -/
structure FaasRequest where
  args : List (Bytes × Bytes)
deriving DecidableEq, Repr

/-- Modelled from the spec: `FaasReply` is the result payload ("return
value(s) or structured output") produced by the handler; its exact fields
are fixed by the wire contract (`faas_pb2`, not present under `src/`). -/
structure FaasReply where
  outputs : List (Bytes × Bytes)
deriving DecidableEq, Repr

/-- Length-prefix a byte string. -/
def encodeBytes (b : Bytes) : List Nat :=
  b.length :: b

/-- Encode one named field: length-prefixed name, then length-prefixed value. -/
def encodeField (f : Bytes × Bytes) : List Nat :=
  encodeBytes f.1 ++ encodeBytes f.2

/-- Modelled from the spec: the wire contract's length-prefixed binary
encoding of a field list — a field count followed by each field. -/
def encodeFields (l : List (Bytes × Bytes)) : List Nat :=
  l.length :: (l.map encodeField).flatten

/-- Read exactly `n` leading tokens, returning them and the remainder. -/
def readTokens : Nat → List Nat → Option (Bytes × List Nat)
  | 0, ts => some ([], ts)
  | _ + 1, [] => none
  | n + 1, t :: ts => (readTokens n ts).map fun p => (t :: p.1, p.2)

/-- Decode one length-prefixed byte string. -/
def decodeBytes : List Nat → Option (Bytes × List Nat)
  | [] => none
  | n :: ts => readTokens n ts

/-- Decode one named field. -/
def decodeField (ts : List Nat) : Option ((Bytes × Bytes) × List Nat) :=
  (decodeBytes ts).bind fun p =>
    (decodeBytes p.2).map fun q => ((p.1, q.1), q.2)

/-- Decode exactly `n` named fields. -/
def decodeFieldsAux : Nat → List Nat → Option (List (Bytes × Bytes) × List Nat)
  | 0, ts => some ([], ts)
  | n + 1, ts =>
    (decodeField ts).bind fun p =>
      (decodeFieldsAux n p.2).map fun q => (p.1 :: q.1, q.2)

/-- Modelled from the spec: decode a field list (count, then fields). -/
def decodeFields : List Nat → Option (List (Bytes × Bytes) × List Nat)
  | [] => none
  | n :: ts => decodeFieldsAux n ts

/-- `FaasRequest.SerializeToString` of the wire contract. -/
def FaasRequest.serializeToString (r : FaasRequest) : Bytes :=
  encodeFields r.args

/-- `FaasRequest.FromString` of the wire contract: the whole byte string
must be consumed, otherwise decoding fails. -/
def FaasRequest.fromString (ts : Bytes) : Option FaasRequest :=
  match decodeFields ts with
  | some (l, []) => some ⟨l⟩
  | _ => none

/-- `FaasReply.SerializeToString` of the wire contract. -/
def FaasReply.serializeToString (r : FaasReply) : Bytes :=
  encodeFields r.outputs

/-- `FaasReply.FromString` of the wire contract. -/
def FaasReply.fromString (ts : Bytes) : Option FaasReply :=
  match decodeFields ts with
  | some (l, []) => some ⟨l⟩
  | _ => none

/-- A Python exception raised by a handler. -/
inductive PyError where
  | notImplementedError (msg : String)
deriving DecidableEq, Repr

/-- The message string carried by a Python exception. -/
def PyError.message : PyError → String
  | .notImplementedError msg => msg

/-- The per-call server context (`grpc.ServicerContext`): the status code
and detail string set by `set_code` / `set_details`. -/
structure CallContext where
  code : Option StatusCode
  details : Option String
deriving DecidableEq, Repr

/-- `context.set_code(c)`. -/
def CallContext.set_code (ctx : CallContext) (c : StatusCode) : CallContext :=
  { ctx with code := some c }

/-- `context.set_details(d)`. -/
def CallContext.set_details (ctx : CallContext) (d : String) : CallContext :=
  { ctx with details := some d }

/-- The type of a unary-unary handler body: `(request, context)` to an
updated context together with a reply or a raised exception. -/
abbrev Handler := FaasRequest → CallContext → CallContext × Except PyError FaasReply

/-- `ExecutorServicer.Execute`, the default (unregistered) servicer body
from `faas_pb2_grpc.py` lines 51–56: sets the context's code to
`UNIMPLEMENTED`, sets its details to the literal string, then raises
`NotImplementedError` — it never reaches a return. -/
def ExecutorServicer.Execute : Handler := fun _request context =>
  let context := context.set_code StatusCode.unimplemented
  let context := context.set_details "Method not implemented!"
  (context, Except.error (PyError.notImplementedError "Method not implemented!"))

/-- A servicer object: the one method of the `Executor` service. -/
structure Servicer where
  Execute : Handler

/-- Instantiating the base class `ExecutorServicer` unchanged gives the
default servicer. -/
def defaultServicer : Servicer :=
  { Execute := ExecutorServicer.Execute }

/-- `grpc.unary_unary_rpc_method_handler(behavior, request_deserializer,
response_serializer)`: the record gRPC keeps per registered method. -/
structure RpcMethodHandler where
  behavior : Handler
  request_deserializer : Bytes → Option FaasRequest
  response_serializer : FaasReply → Bytes

/-- Build an `RpcMethodHandler` exactly as the source does. -/
def unary_unary_rpc_method_handler (behavior : Handler)
    (request_deserializer : Bytes → Option FaasRequest)
    (response_serializer : FaasReply → Bytes) : RpcMethodHandler :=
  { behavior := behavior
    request_deserializer := request_deserializer
    response_serializer := response_serializer }

/-- `grpc.method_handlers_generic_handler(serviceName, handlers)`: a
service name plus its method table. -/
structure GenericHandler where
  serviceName : String
  methodHandlers : List (String × RpcMethodHandler)

/-- Build a `GenericHandler` exactly as the source does. -/
def method_handlers_generic_handler (serviceName : String)
    (methodHandlers : List (String × RpcMethodHandler)) : GenericHandler :=
  { serviceName := serviceName, methodHandlers := methodHandlers }

/-- The server object, reduced to the state this file touches: its list of
installed generic handlers (`add_generic_rpc_handlers` appends to it). -/
structure Server where
  generic_handlers : List GenericHandler

/-- `server.add_generic_rpc_handlers(hs)`. -/
def Server.add_generic_rpc_handlers (server : Server) (hs : List GenericHandler) : Server :=
  { server with generic_handlers := server.generic_handlers ++ hs }

/-- `add_ExecutorServicer_to_server(servicer, server)` from
`faas_pb2_grpc.py` lines 59–69, as a pure transition on the pair of
objects it receives: it builds a one-entry method table for `Execute`,
wraps it in a generic handler for service `faasfunction.Executor`, and
installs it on the server; the servicer itself is returned as it came. -/
def add_ExecutorServicer_to_server (servicer : Servicer) (server : Server) :
    Servicer × Server :=
  let rpc_method_handlers :=
    [("Execute", unary_unary_rpc_method_handler servicer.Execute
        FaasRequest.fromString FaasReply.serializeToString)]
  let generic_handler :=
    method_handlers_generic_handler "faasfunction.Executor" rpc_method_handlers
  (servicer, server.add_generic_rpc_handlers [generic_handler])

/-- What the client stub registers on its channel:
`channel.unary_unary(name, request_serializer, response_deserializer)`. -/
structure UnaryUnaryMultiCallable where
  methodName : String
  request_serializer : FaasRequest → Bytes
  response_deserializer : Bytes → Option FaasReply

/-- `ExecutorStub.__init__` from `faas_pb2_grpc.py` lines 40–44: the one
callable the stub installs as its `Execute` attribute. -/
def ExecutorStub.Execute : UnaryUnaryMultiCallable :=
  { methodName := "/faasfunction.Executor/Execute"
    request_serializer := FaasRequest.serializeToString
    response_deserializer := FaasReply.fromString }

/-! ## Round-trip lemmas for the wire contract -/

theorem readTokens_append (l rest : List Nat) :
    readTokens l.length (l ++ rest) = some (l, rest) := by
  induction l with
  | nil => rfl
  | cons t ts ih => simp [readTokens, ih]

theorem decodeBytes_encodeBytes (b : Bytes) (rest : List Nat) :
    decodeBytes (encodeBytes b ++ rest) = some (b, rest) := by
  simp [encodeBytes, decodeBytes, readTokens_append]

theorem decodeField_encodeField (f : Bytes × Bytes) (rest : List Nat) :
    decodeField (encodeField f ++ rest) = some (f, rest) := by
  simp [encodeField, decodeField, List.append_assoc, decodeBytes_encodeBytes]

theorem decodeFieldsAux_encode (l : List (Bytes × Bytes)) (rest : List Nat) :
    decodeFieldsAux l.length ((l.map encodeField).flatten ++ rest) = some (l, rest) := by
  induction l with
  | nil => rfl
  | cons f fs ih =>
    simp [decodeFieldsAux, List.append_assoc, decodeField_encodeField, ih]

theorem decodeFields_encodeFields (l : List (Bytes × Bytes)) (rest : List Nat) :
    decodeFields (encodeFields l ++ rest) = some (l, rest) := by
  simp [encodeFields, decodeFields, decodeFieldsAux_encode]

theorem faasRequest_decode_encode (r : FaasRequest) :
    FaasRequest.fromString (FaasRequest.serializeToString r) = some r := by
  have h := decodeFields_encodeFields r.args []
  simp only [List.append_nil] at h
  simp [FaasRequest.fromString, FaasRequest.serializeToString, h]

theorem faasReply_decode_encode (r : FaasReply) :
    FaasReply.fromString (FaasReply.serializeToString r) = some r := by
  have h := decodeFields_encodeFields r.outputs []
  simp only [List.append_nil] at h
  simp [FaasReply.fromString, FaasReply.serializeToString, h]

/-! ## Claims -/

/-- C2: for every valid `FaasRequest` and every valid `FaasReply` value,
decoding the encoding of the value (`FromString` of `SerializeToString`)
yields the value back, and the request and reply codecs installed by the
client stub are the exact symmetric counterparts of those installed by the
server registration. -/
theorem execute_codecs_roundtrip_and_symmetric :
    (∀ r : FaasRequest,
      FaasRequest.fromString (FaasRequest.serializeToString r) = some r) ∧
    (∀ v : FaasReply,
      FaasReply.fromString (FaasReply.serializeToString v) = some v) ∧
    (∀ servicer : Servicer, ∀ r : FaasRequest,
      (unary_unary_rpc_method_handler servicer.Execute
        FaasRequest.fromString FaasReply.serializeToString).request_deserializer
        (ExecutorStub.Execute.request_serializer r) = some r) ∧
    (∀ servicer : Servicer, ∀ v : FaasReply,
      ExecutorStub.Execute.response_deserializer
        ((unary_unary_rpc_method_handler servicer.Execute
          FaasRequest.fromString FaasReply.serializeToString).response_serializer v)
        = some v) := by
  refine ⟨faasRequest_decode_encode,
          faasReply_decode_encode, ?_, ?_⟩
  · intro _ r
    exact faasRequest_decode_encode r
  · intro _ v
    exact faasReply_decode_encode v

/-! ## Server dispatch boundary (modelled from the spec) -/

/-- The resolution of one call, as seen by the client: either a reply
payload or a status-coded fault. -/
inductive CallOutcome where
  | reply (payload : Bytes)
  | fault (code : StatusCode) (details : String)
deriving DecidableEq, Repr

/-- Modelled from the spec: the gRPC server's dispatch boundary (spec
§4.3, §7), which is not under `src/`. For an incoming payload on a
registered method: decode the request via the handler's deserializer — a
decode failure yields `MalformedMessage` without invoking the handler;
otherwise invoke the handler body with a fresh call context; a returned
reply is serialized, and a raised exception is caught at the boundary and
converted into a status-coded fault using the code and details the handler
set on the context (defaulting to `Internal` with the exception's message
when none were set). -/
def dispatchCall (h : RpcMethodHandler) (payload : Bytes) (ctx : CallContext) :
    CallOutcome :=
  match h.request_deserializer payload with
  | none => CallOutcome.fault StatusCode.malformedMessage "failed to decode FaasRequest"
  | some req =>
    match h.behavior req ctx with
    | (_, Except.ok reply) => CallOutcome.reply (h.response_serializer reply)
    | (ctx', Except.error e) =>
      CallOutcome.fault (ctx'.code.getD StatusCode.internalError)
        (ctx'.details.getD e.message)

/-- The method handler that `add_ExecutorServicer_to_server` installs for
a given servicer. -/
def installedExecuteHandler (servicer : Servicer) : RpcMethodHandler :=
  unary_unary_rpc_method_handler servicer.Execute
    FaasRequest.fromString FaasReply.serializeToString

/-- C1: calling `Execute` against a server whose handler is the default
(unregistered) servicer resolves with status `Unimplemented` and the
literal detail string `"Method not implemented!"`, for every request and
every initial call context. -/
theorem dispatch_default_servicer_unimplemented
    (req : FaasRequest) (ctx : CallContext) :
    dispatchCall (installedExecuteHandler defaultServicer)
      (FaasRequest.serializeToString req) ctx
      = CallOutcome.fault StatusCode.unimplemented "Method not implemented!" := by
  simp [dispatchCall, installedExecuteHandler, unary_unary_rpc_method_handler,
    defaultServicer, faasRequest_decode_encode,
    ExecutorServicer.Execute, CallContext.set_code, CallContext.set_details]

/-- C8: the default servicer's `Execute` never returns a reply: for every
`(request, context)` pair it raises `NotImplementedError` after setting the
context's code to `UNIMPLEMENTED` and its details to
`"Method not implemented!"` — every execution ends in the raise, so the
return branch is unreachable. -/
theorem executorServicer_execute_always_raises
    (request : FaasRequest) (context : CallContext) :
    (ExecutorServicer.Execute request context).2
        = Except.error (PyError.notImplementedError "Method not implemented!") ∧
    (ExecutorServicer.Execute request context).1.code
        = some StatusCode.unimplemented ∧
    (ExecutorServicer.Execute request context).1.details
        = some "Method not implemented!" := by
  refine ⟨rfl, ?_, ?_⟩ <;>
    simp [ExecutorServicer.Execute, CallContext.set_code, CallContext.set_details]

/-- C4: a payload that fails to decode as a `FaasRequest` makes dispatch
resolve with status `MalformedMessage`, and the registered handler is never
invoked: the outcome is the same whatever servicer body is installed. -/
theorem dispatch_malformed_payload (payload : Bytes)
    (hbad : FaasRequest.fromString payload = none) :
    (∀ servicer : Servicer, ∀ ctx : CallContext,
      dispatchCall (installedExecuteHandler servicer) payload ctx
        = CallOutcome.fault StatusCode.malformedMessage "failed to decode FaasRequest") ∧
    (∀ s₁ s₂ : Servicer, ∀ ctx : CallContext,
      dispatchCall (installedExecuteHandler s₁) payload ctx
        = dispatchCall (installedExecuteHandler s₂) payload ctx) := by
  constructor
  · intro servicer ctx
    simp [dispatchCall, installedExecuteHandler, unary_unary_rpc_method_handler, hbad]
  · intro s₁ s₂ ctx
    simp [dispatchCall, installedExecuteHandler, unary_unary_rpc_method_handler, hbad]

/-- Witness for C4 at the concrete payload `[1]`, which announces one
field but carries none. -/
theorem dispatch_malformed_payload_witness :
    FaasRequest.fromString [1] = none ∧
    dispatchCall (installedExecuteHandler defaultServicer) [1] ⟨none, none⟩
      = CallOutcome.fault StatusCode.malformedMessage "failed to decode FaasRequest" :=
  ⟨rfl, (dispatch_malformed_payload [1] rfl).1 defaultServicer ⟨none, none⟩⟩

/-! ## Static client helper (`Executor.Execute`) -/

/-- The keyword arguments of the static helper `Executor.Execute`
(`faas_pb2_grpc.py` lines 77–87), with their types left opaque as in the
source: they are pass-through configuration for the transport. -/
structure ExecuteArgs (Opt Cred CallCred Comp WFR TO Meta : Type) where
  options : List Opt
  channel_credentials : Option Cred
  call_credentials : Option CallCred
  insecure : Bool
  compression : Option Comp
  wait_for_ready : Option WFR
  timeout : Option TO
  metadata : Option Meta

/-- The default values of the static helper's keyword arguments, exactly
as written in the source: `options=()`, `channel_credentials=None`,
`call_credentials=None`, `insecure=False`, `compression=None`,
`wait_for_ready=None`, `timeout=None`, `metadata=None`. -/
def Executor.executeDefaults (Opt Cred CallCred Comp WFR TO Meta : Type) :
    ExecuteArgs Opt Cred CallCred Comp WFR TO Meta :=
  { options := []
    channel_credentials := none
    call_credentials := none
    insecure := false
    compression := none
    wait_for_ready := none
    timeout := none
    metadata := none }

/-- Everything handed to the transport collaborator
`grpc.experimental.unary_unary`, recorded field by field. -/
structure TransportCall (Opt Cred CallCred Comp WFR TO Meta : Type) where
  request : FaasRequest
  target : String
  methodName : String
  request_serializer : FaasRequest → Bytes
  response_deserializer : Bytes → Option FaasReply
  options : List Opt
  channel_credentials : Option Cred
  insecure : Bool
  call_credentials : Option CallCred
  compression : Option Comp
  wait_for_ready : Option WFR
  timeout : Option TO
  metadata : Option Meta

/-- `grpc.experimental.unary_unary(...)`, modelled as recording its
arguments in positional order (request, target, method, serializer,
deserializer, options, channel_credentials, insecure, call_credentials,
compression, wait_for_ready, timeout, metadata). -/
def grpc_experimental_unary_unary {Opt Cred CallCred Comp WFR TO Meta : Type}
    (request : FaasRequest) (target methodName : String)
    (request_serializer : FaasRequest → Bytes)
    (response_deserializer : Bytes → Option FaasReply)
    (options : List Opt) (channel_credentials : Option Cred) (insecure : Bool)
    (call_credentials : Option CallCred) (compression : Option Comp)
    (wait_for_ready : Option WFR) (timeout : Option TO) (metadata : Option Meta) :
    TransportCall Opt Cred CallCred Comp WFR TO Meta :=
  { request := request, target := target, methodName := methodName
    request_serializer := request_serializer
    response_deserializer := response_deserializer
    options := options, channel_credentials := channel_credentials
    insecure := insecure, call_credentials := call_credentials
    compression := compression, wait_for_ready := wait_for_ready
    timeout := timeout, metadata := metadata }

/-- The static helper `Executor.Execute` from `faas_pb2_grpc.py` lines
77–92: it forwards its request, target and keyword arguments to
`grpc.experimental.unary_unary` together with the method name and the two
codecs, in the source's argument order (`options, channel_credentials,
insecure, call_credentials, compression, wait_for_ready, timeout,
metadata`). -/
def Executor.Execute {Opt Cred CallCred Comp WFR TO Meta : Type}
    (request : FaasRequest) (target : String)
    (args : ExecuteArgs Opt Cred CallCred Comp WFR TO Meta) :
    TransportCall Opt Cred CallCred Comp WFR TO Meta :=
  grpc_experimental_unary_unary request target "/faasfunction.Executor/Execute"
    FaasRequest.serializeToString FaasReply.fromString
    args.options args.channel_credentials args.insecure args.call_credentials
    args.compression args.wait_for_ready args.timeout args.metadata

/-- C9: the static helper defaults to a secure configuration when the
optional arguments are omitted: `insecure` defaults to `False`, `options`
to the empty tuple, and every other optional argument to `None`. -/
theorem executor_execute_defaults_secure
    (Opt Cred CallCred Comp WFR TO Meta : Type) :
    (Executor.executeDefaults Opt Cred CallCred Comp WFR TO Meta).insecure = false ∧
    (Executor.executeDefaults Opt Cred CallCred Comp WFR TO Meta).options = [] ∧
    (Executor.executeDefaults Opt Cred CallCred Comp WFR TO Meta).channel_credentials = none ∧
    (Executor.executeDefaults Opt Cred CallCred Comp WFR TO Meta).call_credentials = none ∧
    (Executor.executeDefaults Opt Cred CallCred Comp WFR TO Meta).compression = none ∧
    (Executor.executeDefaults Opt Cred CallCred Comp WFR TO Meta).wait_for_ready = none ∧
    (Executor.executeDefaults Opt Cred CallCred Comp WFR TO Meta).timeout = none ∧
    (Executor.executeDefaults Opt Cred CallCred Comp WFR TO Meta).metadata = none :=
  ⟨rfl, rfl, rfl, rfl, rfl, rfl, rfl, rfl⟩

/-- C6: the client-side `Execute` forwards every transport option it
accepts to the underlying transport call unmodified — each field of the
transport call equals the argument as given, for all argument values. -/
theorem executor_execute_forwards_options
    {Opt Cred CallCred Comp WFR TO Meta : Type}
    (request : FaasRequest) (target : String)
    (args : ExecuteArgs Opt Cred CallCred Comp WFR TO Meta) :
    (Executor.Execute request target args).options = args.options ∧
    (Executor.Execute request target args).channel_credentials = args.channel_credentials ∧
    (Executor.Execute request target args).call_credentials = args.call_credentials ∧
    (Executor.Execute request target args).insecure = args.insecure ∧
    (Executor.Execute request target args).compression = args.compression ∧
    (Executor.Execute request target args).wait_for_ready = args.wait_for_ready ∧
    (Executor.Execute request target args).timeout = args.timeout ∧
    (Executor.Execute request target args).metadata = args.metadata ∧
    (Executor.Execute request target args).request = request ∧
    (Executor.Execute request target args).target = target :=
  ⟨rfl, rfl, rfl, rfl, rfl, rfl, rfl, rfl, rfl, rfl⟩

/-- C5: the client stub, the static client helper and the server
registration designate exactly one RPC method and agree character for
character on its fully-qualified name `/faasfunction.Executor/Execute` —
server side composed from the service name `faasfunction.Executor` and the
method key `Execute` — with the `FaasRequest` codec on the request side
and the `FaasReply` codec on the reply side everywhere. -/
theorem executor_method_name_agreement
    {Opt Cred CallCred Comp WFR TO Meta : Type}
    (request : FaasRequest) (target : String)
    (args : ExecuteArgs Opt Cred CallCred Comp WFR TO Meta)
    (servicer : Servicer) (server : Server) :
    ExecutorStub.Execute.methodName = "/faasfunction.Executor/Execute" ∧
    (Executor.Execute request target args).methodName
      = "/faasfunction.Executor/Execute" ∧
    (∀ gh ∈ ((add_ExecutorServicer_to_server servicer server).2.generic_handlers.drop
        server.generic_handlers.length),
      "/" ++ gh.serviceName ++ "/" ++ "Execute" = "/faasfunction.Executor/Execute" ∧
      gh.methodHandlers.map Prod.fst = ["Execute"]) ∧
    ((add_ExecutorServicer_to_server servicer server).2.generic_handlers.drop
        server.generic_handlers.length).length = 1 ∧
    ExecutorStub.Execute.request_serializer = FaasRequest.serializeToString ∧
    ExecutorStub.Execute.response_deserializer = FaasReply.fromString ∧
    (Executor.Execute request target args).request_serializer
      = FaasRequest.serializeToString ∧
    (Executor.Execute request target args).response_deserializer
      = FaasReply.fromString ∧
    (installedExecuteHandler servicer).request_deserializer = FaasRequest.fromString ∧
    (installedExecuteHandler servicer).response_serializer
      = FaasReply.serializeToString := by
  refine ⟨rfl, rfl, ?_, ?_, rfl, rfl, rfl, rfl, rfl, rfl⟩
  · intro gh hgh
    simp [add_ExecutorServicer_to_server, Server.add_generic_rpc_handlers,
      method_handlers_generic_handler, List.drop_append] at hgh
    subst hgh
    exact ⟨rfl, rfl⟩
  · simp [add_ExecutorServicer_to_server, Server.add_generic_rpc_handlers,
      List.drop_append]

/-- C10: `add_ExecutorServicer_to_server` appends exactly one generic
handler to the server, whose method table has exactly one entry,
`"Execute"`, bound to the passed servicer's `Execute` method, and the
servicer object itself comes back unchanged. -/
theorem add_executorServicer_installs_one_handler
    (servicer : Servicer) (server : Server) :
    (add_ExecutorServicer_to_server servicer server).1 = servicer ∧
    (add_ExecutorServicer_to_server servicer server).2.generic_handlers
      = server.generic_handlers
        ++ [method_handlers_generic_handler "faasfunction.Executor"
              [("Execute", installedExecuteHandler servicer)]] ∧
    (add_ExecutorServicer_to_server servicer server).2.generic_handlers.length
      = server.generic_handlers.length + 1 ∧
    (installedExecuteHandler servicer).behavior = servicer.Execute := by
  refine ⟨rfl, rfl, ?_, rfl⟩
  simp [add_ExecutorServicer_to_server, Server.add_generic_rpc_handlers]

/-! ## Handler registration table (modelled from the spec) -/

/-- The server's registration table: method name to handler. -/
abbrev RegistrationTable := List (String × Handler)

/-- Modelled from the spec: `RegisterHandler(methodName, handler)` (spec
§4.3) — the gRPC runtime's registration table, not under `src/` — inserts
into the registration table, and fails with `DuplicateMethod`, leaving the
table as it was, if `methodName` is already registered. -/
def RegisterHandler (table : RegistrationTable) (methodName : String)
    (handler : Handler) : Except StatusCode Unit × RegistrationTable :=
  if table.any (fun e => e.1 == methodName) then
    (Except.error StatusCode.duplicateMethod, table)
  else
    (Except.ok (), table ++ [(methodName, handler)])

/-- C3: registering a handler for a method name that is already registered
fails with `DuplicateMethod` and leaves the first registration intact and
unmodified: after a first successful registration, a second registration of
the same name reports `DuplicateMethod` and the table still ends with
exactly the first handler. -/
theorem registerHandler_duplicate (table : RegistrationTable)
    (methodName : String) (h₁ h₂ : Handler)
    (hfree : (table.any fun e => e.1 == methodName) = false) :
    (RegisterHandler table methodName h₁).1 = Except.ok () ∧
    (RegisterHandler table methodName h₁).2 = table ++ [(methodName, h₁)] ∧
    (RegisterHandler (RegisterHandler table methodName h₁).2 methodName h₂).1
      = Except.error StatusCode.duplicateMethod ∧
    (RegisterHandler (RegisterHandler table methodName h₁).2 methodName h₂).2
      = table ++ [(methodName, h₁)] := by
  refine ⟨?_, ?_, ?_, ?_⟩ <;>
    simp [RegisterHandler, hfree, List.any_append]

/-- Witness for C3: on an empty table, registering `"Execute"` twice — the
first registration succeeds, the second fails with `DuplicateMethod` and
the table keeps exactly the first entry. -/
theorem registerHandler_duplicate_witness :
    (([] : RegistrationTable).any fun e => e.1 == "Execute") = false ∧
    (RegisterHandler (RegisterHandler [] "Execute" ExecutorServicer.Execute).2
        "Execute" ExecutorServicer.Execute).1
      = Except.error StatusCode.duplicateMethod ∧
    (RegisterHandler (RegisterHandler [] "Execute" ExecutorServicer.Execute).2
        "Execute" ExecutorServicer.Execute).2
      = [("Execute", ExecutorServicer.Execute)] :=
  ⟨rfl,
    (registerHandler_duplicate [] "Execute"
      ExecutorServicer.Execute ExecutorServicer.Execute rfl).2.2.1,
    (registerHandler_duplicate [] "Execute"
      ExecutorServicer.Execute ExecutorServicer.Execute rfl).2.2.2⟩

/-! ## Deadline propagation (modelled from the spec) -/

/-- Modelled from the spec: deadline propagation (spec §5, §8) — the gRPC
runtime's deadline machinery, not under `src/`. The handler's running time
is `work` discrete time units (milliseconds); before spending each unit the
server compares the elapsed time against the call's deadline and abandons
the work with `DeadlineExceeded` rather than produce a late result; a
handler that finishes within the deadline has its reply serialized. -/
def serveUnderDeadline (deadline : Nat) (reply : FaasReply) :
    Nat → Nat → CallOutcome
  | 0, _ => CallOutcome.reply (FaasReply.serializeToString reply)
  | work + 1, elapsed =>
    if deadline ≤ elapsed then
      CallOutcome.fault StatusCode.deadlineExceeded "Deadline Exceeded"
    else
      serveUnderDeadline deadline reply work (elapsed + 1)

/-- A client call with deadline `deadline` against a handler that runs for
`work` time units, started at elapsed time `0`. -/
def callWithDeadline (deadline work : Nat) (reply : FaasReply) : CallOutcome :=
  serveUnderDeadline deadline reply work 0

theorem serveUnderDeadline_fault (deadline : Nat) (reply : FaasReply) :
    ∀ work elapsed, elapsed ≤ deadline → deadline < elapsed + work →
      serveUnderDeadline deadline reply work elapsed
        = CallOutcome.fault StatusCode.deadlineExceeded "Deadline Exceeded" := by
  intro work
  induction work with
  | zero => intro elapsed hle hlt; omega
  | succ w ih =>
    intro elapsed hle hlt
    by_cases hcut : deadline ≤ elapsed
    · simp [serveUnderDeadline, hcut]
    · have : elapsed + 1 ≤ deadline := by omega
      simp only [serveUnderDeadline, if_neg hcut]
      exact ih (elapsed + 1) this (by omega)

/-- C7: a client call whose deadline is shorter than the handler's running
time resolves with `DeadlineExceeded` and never with a reply (`OK`). -/
theorem short_deadline_deadlineExceeded (deadline work : Nat) (reply : FaasReply)
    (h : deadline < work) :
    callWithDeadline deadline work reply
      = CallOutcome.fault StatusCode.deadlineExceeded "Deadline Exceeded" ∧
    ∀ payload : Bytes,
      callWithDeadline deadline work reply ≠ CallOutcome.reply payload := by
  have hmain := serveUnderDeadline_fault deadline reply work 0 (Nat.zero_le _)
    (by omega)
  refine ⟨hmain, ?_⟩
  intro payload
  rw [callWithDeadline, hmain]
  simp

/-- Witness for C7: a 1 ms deadline against a handler that runs 1000 ms
(sleeps one second) resolves with `DeadlineExceeded`. -/
theorem short_deadline_deadlineExceeded_witness :
    1 < 1000 ∧
    callWithDeadline 1 1000 ⟨[]⟩
      = CallOutcome.fault StatusCode.deadlineExceeded "Deadline Exceeded" :=
  ⟨by decide, (short_deadline_deadlineExceeded 1 1000 ⟨[]⟩ (by decide)).1⟩
